import Mathlib

/-!
Verification of the session-establishment logic in
`src/app/actions/authActions.js` of the neon-wallet repository.

The module's four login action bodies and the logout body are embedded as
pure Lean functions.  External collaborators (the `@cityofzion/neon-js`
key-management library, the address-book upgrade routine from
`../core/account`, the passphrase policy from `../core/wallet`, and the DNS
resolver) are abstracted as an environment record, and every collaborator
call that the spec talks about is recorded in an ordered event trace so that
"X is never invoked" and "steps run in this order" become statements about
that trace.
-/

namespace NeonWallet

/-- A derived wallet account: the observable output of the
`new wallet.Account(key)` constructor from the key-management library,
exposing the canonical WIF and the address. -/
structure AccountRec where
  WIF : String
  address : String
  deriving DecidableEq

/-- The signing capability attached to hardware sessions: the value of
`bindArgsFromN(ledgerNanoSCreateSignatureAsync, 3, account)`, i.e. the device
signature routine with the device account index bound as its third
argument. -/
inductive SigningCapability where
  | hardwareBound (accountIndex : Int)
  deriving DecidableEq

/-- The session record returned by a successful login (`AccountType` in the
source).  `Option` fields model JS object keys that some login variants
omit. -/
structure Session where
  address : String
  wif : Option String
  publicKey : Option String
  signingFunction : Option SigningCapability
  isHardwareLogin : Bool
  isWatchOnly : Option Bool
  hasInternetConnectivity : Bool
  deriving DecidableEq

/-- Login failures.  The source throws untyped `Error` objects; the exact
message strings are preserved, and the three format-validation messages all
carry the kind `invalidCredential` as in the spec's error taxonomy. -/
inductive LoginError where
  | invalidCredential (msg : String)
  | passphraseTooShort
  | decryptionFailed
  | collaboratorFailure
  deriving DecidableEq

/-- Observable collaborator calls made by a login or logout body, recorded
in the order the source performs them. -/
inductive Event where
  | decryptCall (encryptedWIF passphrase : String)
  | deriveCall (key : String)
  | upgradeCall (encryptedWIF wif : String)
  | probeCall
  | resetBalanceCall
  deriving DecidableEq

/-- The external collaborators of `authActions.js`, abstracted: the
key-management library's predicates and operations, the passphrase length
policy, the address-book upgrade routine, and the outcome of
`dns.resolve('google.com', 'A', cb)` (`dnsError` is whether the callback
receives an error).  `getPublicKeyEncoded` may fail: the library throws on a
malformed public key, with the error payload carrying the thrown message.
`account` is the derivation on inputs the library accepts — every call site
reaches it only with a validated key, a decrypted key, or the canonical
encoded key produced by a successful `getPublicKeyEncoded`. -/
structure Env where
  isWIF : String → Bool
  isPrivateKey : String → Bool
  isAddress : String → Bool
  isNEP2 : String → Bool
  validatePassphraseLength : String → Bool
  account : String → AccountRec
  getPublicKeyEncoded : String → Except String String
  decryptAsync : String → String → Except Unit String
  upgradeNEP6AddAddresses : String → String → Except Unit Unit
  dnsError : Bool

/-- `checkForInternetConnectivity`: the promise resolves `false` exactly when
DNS resolution reports an error and `true` otherwise; it never rejects. -/
def checkForInternetConnectivity (env : Env) : Bool :=
  !env.dnsError

/-- The login body of `wifLoginActions`: validate the key string, derive the
account, probe connectivity, build the session.  Returns the outcome
together with the ordered trace of collaborator calls. -/
def wifLoginRun (env : Env) (wif : String) :
    Except LoginError Session × List Event :=
  if !env.isWIF wif && !env.isPrivateKey wif then
    (.error (.invalidCredential "Invalid private key entered"), [])
  else
    let account := env.account wif
    let hasInternetConnectivity := checkForInternetConnectivity env
    (.ok { address := account.address
           wif := some account.WIF
           publicKey := none
           signingFunction := none
           isHardwareLogin := false
           isWatchOnly := none
           hasInternetConnectivity := hasInternetConnectivity },
     [.deriveCall wif, .probeCall])

/-- The login body of `watchOnlyLoginActions`: validate the address, probe
connectivity, build the key-free watch-only session. -/
def watchOnlyLoginRun (env : Env) (address : String) :
    Except LoginError Session × List Event :=
  if !env.isAddress address then
    (.error (.invalidCredential "Invalid public key entered"), [])
  else
    let hasInternetConnectivity := checkForInternetConnectivity env
    (.ok { address := address
           wif := none
           publicKey := none
           signingFunction := none
           isHardwareLogin := false
           isWatchOnly := some true
           hasInternetConnectivity := hasInternetConnectivity },
     [.probeCall])

/-- The login body of `nep2LoginActions`: passphrase-length gate, NEP2
format gate, decryption, account derivation, awaited address-book upgrade,
connectivity probe, session construction — in that order. -/
def nep2LoginRun (env : Env) (passphrase encryptedWIF : String) :
    Except LoginError Session × List Event :=
  if !env.validatePassphraseLength passphrase then
    (.error .passphraseTooShort, [])
  else if !env.isNEP2 encryptedWIF then
    (.error (.invalidCredential "Invalid encrypted key entered"), [])
  else
    match env.decryptAsync encryptedWIF passphrase with
    | .error _ =>
      (.error .decryptionFailed, [.decryptCall encryptedWIF passphrase])
    | .ok wif =>
      let account := env.account wif
      match env.upgradeNEP6AddAddresses encryptedWIF wif with
      | .error _ =>
        (.error .collaboratorFailure,
         [.decryptCall encryptedWIF passphrase, .deriveCall wif,
          .upgradeCall encryptedWIF wif])
      | .ok _ =>
        let hasInternetConnectivity := checkForInternetConnectivity env
        (.ok { address := account.address
               wif := some account.WIF
               publicKey := none
               signingFunction := none
               isHardwareLogin := false
               isWatchOnly := none
               hasInternetConnectivity := hasInternetConnectivity },
         [.decryptCall encryptedWIF passphrase, .deriveCall wif,
          .upgradeCall encryptedWIF wif, .probeCall])

/-- The login body of `ledgerLoginActions`: encode the public key — a
malformed key makes the library throw there, aborting the login with the
thrown message, an invalid-credential failure in the spec's taxonomy —
then derive the account from the encoded key, probe connectivity, and build
the hardware session with the bound signing capability. -/
def ledgerLoginRun (env : Env) (publicKey : String) (account : Int) :
    Except LoginError Session × List Event :=
  match env.getPublicKeyEncoded publicKey with
  | .error m => (.error (.invalidCredential m), [])
  | .ok publicKeyEncoded =>
    let walletAccount := env.account publicKeyEncoded
    let hasInternetConnectivity := checkForInternetConnectivity env
    (.ok { address := walletAccount.address
           wif := none
           publicKey := some publicKey
           signingFunction := some (.hardwareBound account)
           isHardwareLogin := true
           isWatchOnly := none
           hasInternetConnectivity := hasInternetConnectivity },
     [.deriveCall publicKeyEncoded, .probeCall])

/-- The body of `logoutActions`: call `resetBalanceState()` and return
`null` (no session), unconditionally and synchronously. -/
def logoutRun : Option Session × List Event :=
  (none, [.resetBalanceCall])

/-- Modelled from the spec: how the session store (the `spunky` action layer,
an external collaborator outside this repository) applies a login outcome —
a successful login replaces the session wholesale with the returned payload,
a failed (thrown) login leaves the previous session untouched. -/
def applyLogin (prev : Option Session) (result : Except LoginError Session) :
    Option Session :=
  match result with
  | .ok s => some s
  | .error _ => prev

/-- Modelled from the spec: the store applies the payload of `logoutActions`
(`null`) as the new session, whatever session existed before. -/
def applyLogout (_prev : Option Session) : Option Session :=
  logoutRun.1

/-- A concrete environment used to exercise the login bodies on closed
inputs. -/
def testEnv : Env where
  isWIF := fun s => s == "WIFKEY"
  isPrivateKey := fun s => s == "RAWKEY"
  isAddress := fun s => s == "ADDR1"
  isNEP2 := fun s => s == "ENCKEY"
  validatePassphraseLength := fun s => 4 ≤ s.length
  account := fun k => { WIF := "W." ++ k, address := "A." ++ k }
  getPublicKeyEncoded := fun pk =>
    if pk == "PUBKEY" then .ok ("E." ++ pk) else .error "Invalid public key"
  decryptAsync := fun enc pass =>
    if enc == "ENCKEY" && pass == "passgood" then .ok "RAWKEY" else .error ()
  upgradeNEP6AddAddresses := fun _ _ => .ok ()
  dnsError := false

/-- The test environment with a failing DNS resolution. -/
def dnsFailEnv : Env :=
  { testEnv with dnsError := true }

/-- The test environment with a rejecting address-book upgrade routine. -/
def upgradeFailEnv : Env :=
  { testEnv with upgradeNEP6AddAddresses := fun _ _ => .error () }

/-- A sample session value used to instantiate closed statements; it is the
session `wifLoginRun testEnv "RAWKEY"` produces. -/
def sampleSession : Session where
  address := "A.RAWKEY"
  wif := some "W.RAWKEY"
  publicKey := none
  signingFunction := none
  isHardwareLogin := false
  isWatchOnly := none
  hasInternetConnectivity := true

/-- C1: in the encrypted-key login the passphrase-length gate is checked
first — a failing passphrase yields `passphraseTooShort` with an empty call
trace (so the decrypt collaborator is never invoked) for every encrypted-key
value, including non-NEP2 ones; a passing passphrase with a non-NEP2
encrypted key yields the invalid-credential error, again with an empty
trace, so decryption is never attempted there either. -/
theorem nep2_validation_gates (env : Env) (passphrase encryptedWIF : String) :
    (env.validatePassphraseLength passphrase = false →
      nep2LoginRun env passphrase encryptedWIF =
        (.error .passphraseTooShort, [])) ∧
    (env.validatePassphraseLength passphrase = true →
      env.isNEP2 encryptedWIF = false →
      nep2LoginRun env passphrase encryptedWIF =
        (.error (.invalidCredential "Invalid encrypted key entered"), [])) := by
  refine ⟨fun h => ?_, fun h1 h2 => ?_⟩
  · simp [nep2LoginRun, h]
  · simp [nep2LoginRun, h1, h2]

/-- Witness for C1 at concrete inputs: a two-character passphrase fails the
length gate even with a well-formed encrypted key, and a long-enough
passphrase with a malformed encrypted key fails the format gate. -/
theorem nep2_validation_gates_witness :
    nep2LoginRun testEnv "ab" "ENCKEY" =
      (.error .passphraseTooShort, []) ∧
    nep2LoginRun testEnv "passgood" "junk" =
      (.error (.invalidCredential "Invalid encrypted key entered"), []) :=
  ⟨(nep2_validation_gates testEnv "ab" "ENCKEY").1 rfl,
   (nep2_validation_gates testEnv "passgood" "junk").2 rfl rfl⟩

/-- C3: for a string accepted as WIF or as raw private key, `wifLoginRun`
succeeds with `isHardwareLogin = false`, no watch-only flag, no public key
and no signing capability, and `wif`/`address` equal to the deterministic
account derivation from that key, with connectivity set to the probe
result. -/
theorem wifLogin_success (env : Env) (wif : String)
    (h : env.isWIF wif = true ∨ env.isPrivateKey wif = true) :
    wifLoginRun env wif =
      (.ok { address := (env.account wif).address,
             wif := some (env.account wif).WIF,
             publicKey := none,
             signingFunction := none,
             isHardwareLogin := false,
             isWatchOnly := none,
             hasInternetConnectivity := checkForInternetConnectivity env },
       [.deriveCall wif, .probeCall]) := by
  rcases h with h | h <;> simp [wifLoginRun, h]

/-- Witness for C3: the key accepted as WIF in the test environment logs in
with the derived WIF and address. -/
theorem wifLogin_success_witness :
    wifLoginRun testEnv "WIFKEY" =
      (.ok { address := "A.WIFKEY",
             wif := some "W.WIFKEY",
             publicKey := none,
             signingFunction := none,
             isHardwareLogin := false,
             isWatchOnly := none,
             hasInternetConnectivity := true },
       [.deriveCall "WIFKEY", .probeCall]) :=
  wifLogin_success testEnv "WIFKEY" (Or.inl rfl)

/-- C4: a hardware login whose public-key encoding step succeeds yields
`isHardwareLogin = true`, the original (unencoded) public key, an address
derived from the canonical encoded public key, the hardware signature
capability with the device account index pre-bound, and no `wif` field. -/
theorem ledgerLogin_session (env : Env) (publicKey : String) (account : Int)
    (enc : String) (h : env.getPublicKeyEncoded publicKey = .ok enc) :
    ledgerLoginRun env publicKey account =
      (.ok { address := (env.account enc).address,
             wif := none,
             publicKey := some publicKey,
             signingFunction := some (.hardwareBound account),
             isHardwareLogin := true,
             isWatchOnly := none,
             hasInternetConnectivity := checkForInternetConnectivity env },
       [.deriveCall enc, .probeCall]) := by
  simp [ledgerLoginRun, h]

/-- Witness for C4: the hardware login at device index 2 on the test
environment's well-formed public key. -/
theorem ledgerLogin_session_witness :
    ledgerLoginRun testEnv "PUBKEY" 2 =
      (.ok { address := "A.E.PUBKEY",
             wif := none,
             publicKey := some "PUBKEY",
             signingFunction := some (.hardwareBound 2),
             isHardwareLogin := true,
             isWatchOnly := none,
             hasInternetConnectivity := true },
       [.deriveCall "E.PUBKEY", .probeCall]) :=
  ledgerLogin_session testEnv "PUBKEY" 2 "E.PUBKEY" rfl

/-- C7: a valid chain address logs in watch-only with the supplied address
string verbatim, `isWatchOnly = true`, `isHardwareLogin = false`, no key
material or signing capability, and connectivity set to the probe result;
an invalid address fails with the invalid-credential error. -/
theorem watchOnly_spec (env : Env) (address : String) :
    (env.isAddress address = true →
      watchOnlyLoginRun env address =
        (.ok { address := address,
               wif := none,
               publicKey := none,
               signingFunction := none,
               isHardwareLogin := false,
               isWatchOnly := some true,
               hasInternetConnectivity := checkForInternetConnectivity env },
         [.probeCall])) ∧
    (env.isAddress address = false →
      watchOnlyLoginRun env address =
        (.error (.invalidCredential "Invalid public key entered"), [])) := by
  refine ⟨fun h => ?_, fun h => ?_⟩ <;> simp [watchOnlyLoginRun, h]

/-- Witness for C7: both branches at concrete addresses. -/
theorem watchOnly_spec_witness :
    watchOnlyLoginRun testEnv "ADDR1" =
      (.ok { address := "ADDR1",
             wif := none,
             publicKey := none,
             signingFunction := none,
             isHardwareLogin := false,
             isWatchOnly := some true,
             hasInternetConnectivity := true },
       [.probeCall]) ∧
    watchOnlyLoginRun testEnv "nope" =
      (.error (.invalidCredential "Invalid public key entered"), []) :=
  ⟨(watchOnly_spec testEnv "ADDR1").1 rfl,
   (watchOnly_spec testEnv "nope").2 rfl⟩

/-- C2: when the two validation gates pass and decryption succeeds with
decrypted key `wif`, the address-book upgrade collaborator is invoked
exactly once, with the original encrypted key and the decrypted key; if the
collaborator rejects, the login fails with `collaboratorFailure` and no
session is produced even though derivation succeeded; if it succeeds, the
session's address and WIF are the deterministic account derivation from the
decrypted key. -/
theorem nep2_success_upgrade (env : Env) (passphrase encryptedWIF wif : String)
    (hp : env.validatePassphraseLength passphrase = true)
    (hn : env.isNEP2 encryptedWIF = true)
    (hd : env.decryptAsync encryptedWIF passphrase = .ok wif) :
    (nep2LoginRun env passphrase encryptedWIF).2.count
        (Event.upgradeCall encryptedWIF wif) = 1 ∧
    (∀ e : Unit, env.upgradeNEP6AddAddresses encryptedWIF wif = .error e →
      nep2LoginRun env passphrase encryptedWIF =
        (.error .collaboratorFailure,
         [.decryptCall encryptedWIF passphrase, .deriveCall wif,
          .upgradeCall encryptedWIF wif])) ∧
    (∀ u : Unit, env.upgradeNEP6AddAddresses encryptedWIF wif = .ok u →
      nep2LoginRun env passphrase encryptedWIF =
        (.ok { address := (env.account wif).address,
               wif := some (env.account wif).WIF,
               publicKey := none,
               signingFunction := none,
               isHardwareLogin := false,
               isWatchOnly := none,
               hasInternetConnectivity := checkForInternetConnectivity env },
         [.decryptCall encryptedWIF passphrase, .deriveCall wif,
          .upgradeCall encryptedWIF wif, .probeCall])) := by
  refine ⟨?_, fun e he => ?_, fun u hu => ?_⟩
  · cases hu : env.upgradeNEP6AddAddresses encryptedWIF wif with
    | error e => simp [nep2LoginRun, hp, hn, hd, hu, List.count_cons]
    | ok u => simp [nep2LoginRun, hp, hn, hd, hu, List.count_cons]
  · simp [nep2LoginRun, hp, hn, hd, he]
  · simp [nep2LoginRun, hp, hn, hd, hu]

/-- Witness for C2: in the test environment the upgrade collaborator is
called exactly once, and with the rejecting collaborator the same login
fails with `collaboratorFailure`. -/
theorem nep2_success_upgrade_witness :
    (nep2LoginRun testEnv "passgood" "ENCKEY").2.count
        (Event.upgradeCall "ENCKEY" "RAWKEY") = 1 ∧
    nep2LoginRun upgradeFailEnv "passgood" "ENCKEY" =
      (.error .collaboratorFailure,
       [.decryptCall "ENCKEY" "passgood", .deriveCall "RAWKEY",
        .upgradeCall "ENCKEY" "RAWKEY"]) :=
  ⟨(nep2_success_upgrade testEnv "passgood" "ENCKEY" "RAWKEY" rfl rfl rfl).1,
   (nep2_success_upgrade upgradeFailEnv "passgood" "ENCKEY" "RAWKEY"
      rfl rfl rfl).2.1 () rfl⟩

/-- C5: the connectivity probe is a total boolean — `true` exactly when DNS
resolution reports no error — and a probe returning `false` never aborts a
login: with a failing DNS resolution each of the four variants, once its own
earlier steps succeed (valid address; key accepted as WIF or raw private
key; successful public-key encoding; passing gates with successful
decryption and upgrade), still builds the session with every other field
populated and `hasInternetConnectivity = false`. -/
theorem connectivity_probe_contract (env : Env) :
    (checkForInternetConnectivity env = true ↔ env.dnsError = false) ∧
    (env.dnsError = true → ∀ addr, env.isAddress addr = true →
      watchOnlyLoginRun env addr =
        (.ok { address := addr,
               wif := none,
               publicKey := none,
               signingFunction := none,
               isHardwareLogin := false,
               isWatchOnly := some true,
               hasInternetConnectivity := false },
         [.probeCall])) ∧
    (env.dnsError = true →
      ∀ k, env.isWIF k = true ∨ env.isPrivateKey k = true →
      wifLoginRun env k =
        (.ok { address := (env.account k).address,
               wif := some (env.account k).WIF,
               publicKey := none,
               signingFunction := none,
               isHardwareLogin := false,
               isWatchOnly := none,
               hasInternetConnectivity := false },
         [.deriveCall k, .probeCall])) ∧
    (env.dnsError = true →
      ∀ pk n enc, env.getPublicKeyEncoded pk = .ok enc →
      ledgerLoginRun env pk n =
        (.ok { address := (env.account enc).address,
               wif := none,
               publicKey := some pk,
               signingFunction := some (.hardwareBound n),
               isHardwareLogin := true,
               isWatchOnly := none,
               hasInternetConnectivity := false },
         [.deriveCall enc, .probeCall])) ∧
    (env.dnsError = true →
      ∀ p e w, env.validatePassphraseLength p = true →
      env.isNEP2 e = true → env.decryptAsync e p = .ok w →
      env.upgradeNEP6AddAddresses e w = .ok () →
      nep2LoginRun env p e =
        (.ok { address := (env.account w).address,
               wif := some (env.account w).WIF,
               publicKey := none,
               signingFunction := none,
               isHardwareLogin := false,
               isWatchOnly := none,
               hasInternetConnectivity := false },
         [.decryptCall e p, .deriveCall w, .upgradeCall e w, .probeCall])) := by
  refine ⟨?_, fun hdns addr ha => ?_, fun hdns k hk => ?_,
          fun hdns pk n enc henc => ?_,
          fun hdns p e w hp hn hd hu => ?_⟩
  · simp [checkForInternetConnectivity]
  · simp [watchOnlyLoginRun, checkForInternetConnectivity, hdns, ha]
  · rcases hk with hk | hk <;>
      simp [wifLoginRun, checkForInternetConnectivity, hdns, hk]
  · simp [ledgerLoginRun, checkForInternetConnectivity, hdns, henc]
  · simp [nep2LoginRun, checkForInternetConnectivity, hdns, hp, hn, hd, hu]

/-- Witness for C5: with a failing DNS resolution a watch-only, a raw-key
(accepted as raw private key), a hardware and an encrypted-key login all
still succeed, carrying `hasInternetConnectivity = false`. -/
theorem connectivity_probe_contract_witness :
    watchOnlyLoginRun dnsFailEnv "ADDR1" =
      (.ok { address := "ADDR1",
             wif := none,
             publicKey := none,
             signingFunction := none,
             isHardwareLogin := false,
             isWatchOnly := some true,
             hasInternetConnectivity := false },
       [.probeCall]) ∧
    wifLoginRun dnsFailEnv "RAWKEY" =
      (.ok { address := "A.RAWKEY",
             wif := some "W.RAWKEY",
             publicKey := none,
             signingFunction := none,
             isHardwareLogin := false,
             isWatchOnly := none,
             hasInternetConnectivity := false },
       [.deriveCall "RAWKEY", .probeCall]) ∧
    ledgerLoginRun dnsFailEnv "PUBKEY" 2 =
      (.ok { address := "A.E.PUBKEY",
             wif := none,
             publicKey := some "PUBKEY",
             signingFunction := some (.hardwareBound 2),
             isHardwareLogin := true,
             isWatchOnly := none,
             hasInternetConnectivity := false },
       [.deriveCall "E.PUBKEY", .probeCall]) ∧
    nep2LoginRun dnsFailEnv "passgood" "ENCKEY" =
      (.ok { address := "A.RAWKEY",
             wif := some "W.RAWKEY",
             publicKey := none,
             signingFunction := none,
             isHardwareLogin := false,
             isWatchOnly := none,
             hasInternetConnectivity := false },
       [.decryptCall "ENCKEY" "passgood", .deriveCall "RAWKEY",
        .upgradeCall "ENCKEY" "RAWKEY", .probeCall]) :=
  ⟨(connectivity_probe_contract dnsFailEnv).2.1 rfl "ADDR1" rfl,
   (connectivity_probe_contract dnsFailEnv).2.2.1 rfl "RAWKEY" (Or.inr rfl),
   (connectivity_probe_contract dnsFailEnv).2.2.2.1 rfl "PUBKEY" 2
     "E.PUBKEY" rfl,
   (connectivity_probe_contract dnsFailEnv).2.2.2.2 rfl "passgood" "ENCKEY"
     "RAWKEY" rfl rfl rfl rfl⟩

/-- C6: a string accepted neither as WIF nor as raw private key makes
`wifLoginRun` fail with the invalid-credential error and an empty call trace
— so no account derivation (no `deriveCall`) is attempted and no session is
produced — and the store keeps any pre-existing session unchanged. -/
theorem wifLogin_invalid (env : Env) (wif : String)
    (h1 : env.isWIF wif = false) (h2 : env.isPrivateKey wif = false) :
    wifLoginRun env wif =
      (.error (.invalidCredential "Invalid private key entered"), []) ∧
    ∀ prev, applyLogin prev (wifLoginRun env wif).1 = prev := by
  have hrun : wifLoginRun env wif =
      (.error (.invalidCredential "Invalid private key entered"), []) := by
    simp [wifLoginRun, h1, h2]
  exact ⟨hrun, fun prev => by simp [hrun, applyLogin]⟩

/-- Witness for C6: a garbage key string is rejected and a pre-existing
session survives the failed login. -/
theorem wifLogin_invalid_witness :
    wifLoginRun testEnv "garbage" =
      (.error (.invalidCredential "Invalid private key entered"), []) ∧
    applyLogin (some sampleSession) (wifLoginRun testEnv "garbage").1 =
      some sampleSession :=
  ⟨(wifLogin_invalid testEnv "garbage" rfl rfl).1,
   (wifLogin_invalid testEnv "garbage" rfl rfl).2 (some sampleSession)⟩

/-- C8: logout returns no session and triggers the balance-state reset
collaborator exactly once, whatever the previous session was (including
none), and applying it twice still leaves the session absent. -/
theorem logout_contract :
    logoutRun = (none, [Event.resetBalanceCall]) ∧
    logoutRun.2.count Event.resetBalanceCall = 1 ∧
    (∀ prev : Option Session, applyLogout prev = none) ∧
    applyLogout (applyLogout (some sampleSession)) = none := by
  refine ⟨rfl, rfl, fun prev => rfl, rfl⟩

/-- C9: within one login call of any variant the steps run in the fixed
order validate → derive/decrypt → upgrade (encrypted-key variant only) →
connectivity probe → session construction: on any failure the probe is never
invoked (`probeCall` is absent from the trace), and on success the trace is
exactly the in-order call list, ending with a single `probeCall` immediately
before the session is returned. -/
theorem login_fixed_order (env : Env) :
    (∀ k e tr, wifLoginRun env k = (.error e, tr) →
      Event.probeCall ∉ tr) ∧
    (∀ k s tr, wifLoginRun env k = (.ok s, tr) →
      tr = [.deriveCall k, .probeCall]) ∧
    (∀ a e tr, watchOnlyLoginRun env a = (.error e, tr) →
      Event.probeCall ∉ tr) ∧
    (∀ a s tr, watchOnlyLoginRun env a = (.ok s, tr) →
      tr = [.probeCall]) ∧
    (∀ p enc e tr, nep2LoginRun env p enc = (.error e, tr) →
      Event.probeCall ∉ tr) ∧
    (∀ p enc s tr, nep2LoginRun env p enc = (.ok s, tr) →
      ∃ w, env.decryptAsync enc p = .ok w ∧
        tr = [.decryptCall enc p, .deriveCall w,
              .upgradeCall enc w, .probeCall]) ∧
    (∀ pk n e tr, ledgerLoginRun env pk n = (.error e, tr) →
      Event.probeCall ∉ tr) ∧
    (∀ pk n s tr, ledgerLoginRun env pk n = (.ok s, tr) →
      ∃ enc, env.getPublicKeyEncoded pk = .ok enc ∧
        tr = [.deriveCall enc, .probeCall]) := by
  refine ⟨fun k e tr h => ?_, fun k s tr h => ?_, fun a e tr h => ?_,
          fun a s tr h => ?_, fun p enc e tr h => ?_, fun p enc s tr h => ?_,
          fun pk n e tr h => ?_, fun pk n s tr h => ?_⟩
  · by_cases h1 : env.isWIF k <;> by_cases h2 : env.isPrivateKey k <;>
      simp [wifLoginRun, h1, h2] at h
    simp [h.2]
  · by_cases h1 : env.isWIF k <;> by_cases h2 : env.isPrivateKey k <;>
      simp [wifLoginRun, h1, h2] at h <;> simp [h.2]
  · by_cases h1 : env.isAddress a <;> simp [watchOnlyLoginRun, h1] at h
    simp [h.2]
  · by_cases h1 : env.isAddress a <;> simp [watchOnlyLoginRun, h1] at h
    simp [h.2]
  · by_cases h1 : env.validatePassphraseLength p
    · by_cases h2 : env.isNEP2 enc
      · cases h3 : env.decryptAsync enc p with
        | error u =>
          simp [nep2LoginRun, h1, h2, h3] at h
          simp [← h.2]
        | ok w =>
          cases h4 : env.upgradeNEP6AddAddresses enc w with
          | error u =>
            simp [nep2LoginRun, h1, h2, h3, h4] at h
            simp [← h.2]
          | ok u =>
            simp [nep2LoginRun, h1, h2, h3, h4] at h
      · simp [nep2LoginRun, h1, h2] at h
        simp [h.2]
    · simp [nep2LoginRun, h1] at h
      simp [h.2]
  · by_cases h1 : env.validatePassphraseLength p
    · by_cases h2 : env.isNEP2 enc
      · cases h3 : env.decryptAsync enc p with
        | error u => simp [nep2LoginRun, h1, h2, h3] at h
        | ok w =>
          cases h4 : env.upgradeNEP6AddAddresses enc w with
          | error u => simp [nep2LoginRun, h1, h2, h3, h4] at h
          | ok u =>
            simp [nep2LoginRun, h1, h2, h3, h4] at h
            exact ⟨w, rfl, h.2.symm⟩
      · simp [nep2LoginRun, h1, h2] at h
    · simp [nep2LoginRun, h1] at h
  · cases henc : env.getPublicKeyEncoded pk with
    | error m =>
      simp [ledgerLoginRun, henc] at h
      simp [h.2]
    | ok enc => simp [ledgerLoginRun, henc] at h
  · cases henc : env.getPublicKeyEncoded pk with
    | error m => simp [ledgerLoginRun, henc] at h
    | ok enc =>
      simp [ledgerLoginRun, henc] at h
      exact ⟨enc, rfl, h.2.symm⟩

/-- Witness for C9: neither the failed encrypted-key login (short
passphrase) nor the failed hardware login (malformed public key) ever
reaches the connectivity probe. -/
theorem login_fixed_order_witness :
    Event.probeCall ∉ (nep2LoginRun testEnv "ab" "ENCKEY").2 ∧
    Event.probeCall ∉ (ledgerLoginRun testEnv "badpk" 0).2 :=
  ⟨(login_fixed_order testEnv).2.2.2.2.1 "ab" "ENCKEY"
     LoginError.passphraseTooShort (nep2LoginRun testEnv "ab" "ENCKEY").2 rfl,
   (login_fixed_order testEnv).2.2.2.2.2.2.1 "badpk" 0
     (LoginError.invalidCredential "Invalid public key")
     (ledgerLoginRun testEnv "badpk" 0).2 rfl⟩

/-- C10: the `wif` field of a session built by the raw-key or encrypted-key
login is the canonical WIF recomputed from the derived account object, not
the caller-supplied input string nor the raw string returned by the decrypt
collaborator; in particular, whenever the derived account's WIF differs from
the raw-key login input (as it does for a raw non-WIF private key), the
session's `wif` differs from the input string. -/
theorem session_wif_recomputed (env : Env) (k : String)
    (h : env.isWIF k = true ∨ env.isPrivateKey k = true) :
    (∀ s, (wifLoginRun env k).1 = .ok s →
      s.wif = some (env.account k).WIF ∧
      ((env.account k).WIF ≠ k → s.wif ≠ some k)) ∧
    (∀ p enc w s, env.decryptAsync enc p = .ok w →
      (nep2LoginRun env p enc).1 = .ok s →
      s.wif = some (env.account w).WIF) := by
  constructor
  · intro s hs
    have hrun : (wifLoginRun env k).1 =
        .ok { address := (env.account k).address,
              wif := some (env.account k).WIF,
              publicKey := none,
              signingFunction := none,
              isHardwareLogin := false,
              isWatchOnly := none,
              hasInternetConnectivity := checkForInternetConnectivity env } := by
      rcases h with h | h <;> simp [wifLoginRun, h]
    rw [hrun] at hs
    cases hs
    exact ⟨rfl, fun hne hcontra => hne (by simpa using hcontra)⟩
  · intro p enc w s hd hs
    by_cases h1 : env.validatePassphraseLength p
    · by_cases h2 : env.isNEP2 enc
      · cases h4 : env.upgradeNEP6AddAddresses enc w with
        | error u => simp [nep2LoginRun, h1, h2, hd, h4] at hs
        | ok u =>
          simp [nep2LoginRun, h1, h2, hd, h4] at hs
          simp [← hs]
      · simp [nep2LoginRun, h1, h2] at hs
    · simp [nep2LoginRun, h1] at hs

/-- Witness for C10: in the test environment the raw-key login on the raw
private key yields the recomputed WIF, which differs from the input
string. -/
theorem session_wif_recomputed_witness :
    sampleSession.wif = some "W.RAWKEY" ∧
    sampleSession.wif ≠ some "RAWKEY" := by
  have h := (session_wif_recomputed testEnv "RAWKEY" (Or.inr rfl)).1
    sampleSession rfl
  exact ⟨h.1, h.2 (by decide)⟩

end NeonWallet
